import Mathlib

set_option maxHeartbeats 1000000

/-
Verification development for the node-assembly layer of
client/service/src/builder.rs: a shallow embedding of the data model and
of the functions build, build_network, gen_handler, build_telemetry,
transaction_notifications, telemetry_periodic_send,
telemetry_periodic_network_state and Builder::build_light, together with
theorems about the warning/error policy, the RPC handler generation, the
transaction bridge and the periodic status-sink registrations.

External collaborators (session-key generation, NetworkWorker::new,
MetricsService::with_prometheus, start_rpc_servers, init_telemetry,
tracing subscriber installation, client queries) are modelled as oracles
in an Externals record; opaque runtime handles (clients, pools,
keystores, channels) are modelled as natural numbers. Logging, task
spawning, telemetry records and status-sink registrations are modelled
as an explicit event trace.
-/

namespace SubstrateService

/-- Node role, from sc_network config. Only the Light versus non-Light
distinction matters to the assembly code under scrutiny. -/
inductive Role
  | full
  | light
  | sentry
  | authority
deriving DecidableEq

/-- Mirrors matches of the role against Role::Light. -/
def Role.isLight : Role → Bool
  | .light => true
  | _ => false

/-- Mirrors Role::is_authority. -/
def Role.isAuthority : Role → Bool
  | .authority => true
  | _ => false

/-- Offchain worker section of the configuration. -/
structure OffchainWorkerConfig where
  enabled : Bool
  indexing_enabled : Bool
deriving DecidableEq

/-- Prometheus section of the configuration; the registry is an opaque
handle. -/
structure PrometheusConfig where
  port : Nat
  registry : Nat
deriving DecidableEq

/-- The chain-spec fields read by the assembly code. -/
structure ChainSpec where
  name : String
  protocol_id : Option String
  properties : Nat
  chain_type : Nat
deriving DecidableEq

/-- The network-configuration fields read by the assembly code. -/
structure NetworkConfiguration where
  node_name : String
  boot_nodes : List Nat
deriving DecidableEq

/-- The Configuration fields read during build and its helpers.
Opaque values are natural-number handles. -/
structure Configuration where
  role : Role
  dev_key_seed : Option String
  offchain_worker : OffchainWorkerConfig
  prometheus_config : Option PrometheusConfig
  telemetry_endpoints : Option Nat
  telemetry_external_transport : Option Nat
  tracing_targets : Option String
  tracing_receiver : Nat
  chain_spec : ChainSpec
  base_path : Option Nat
  announce_block : Bool
  informant_output_format : Nat
  network : NetworkConfiguration
  impl_name : String
  impl_version : String
deriving DecidableEq

/-- The two spawn kinds of the task manager: spawn and spawn_blocking. -/
inductive TaskKind
  | cooperative
  | blocking
deriving DecidableEq

/-- Observable effects of the assembly code: task spawns, log lines at
the three levels used, telemetry records, status-sink registrations,
transaction propagation and metrics ticks. -/
inductive Event
  | spawnTask (name : String) (kind : TaskKind)
  | warn (msg : String)
  | errorLog (msg : String)
  | infoLog (msg : String)
  | telemetryRecord (name : String) (payload : List (String × Nat))
  | statusSinkPush (interval_ms : Nat)
  | propagate (hash : Nat)
  | metricsTick (info ready future net_status : Nat)
deriving DecidableEq

/-- Whether an event is a task spawn. -/
def Event.isSpawn : Event → Bool
  | .spawnTask _ _ => true
  | _ => false

/-- Whether an event is a warning-level log line. -/
def Event.isWarn : Event → Bool
  | .warn _ => true
  | _ => false

/-- The spawn events of a trace. -/
def spawns (tr : List Event) : List Event := tr.filter Event.isSpawn

/-- The number of warning-level log lines in a trace. -/
def warnCount (tr : List Event) : Nat := (tr.filter Event.isWarn).length

/-- Errors build can return, one per fallible collaborator call reached
through the question-mark operator. -/
inductive Error
  | sessionKeys (e : Nat)
  | networkWorker (e : Nat)
  | prometheusMetrics (e : Nat)
  | rpcServers (e : Nat)
deriving DecidableEq

/-- Boolean success test for Except results. -/
def exceptIsOk {ε α : Type} : Except ε α → Bool
  | .ok _ => true
  | .error _ => false

/-- Results of the external collaborator calls made during build, fixed
ahead of the run: an oracle record. -/
structure Externals where
  generate_initial_session_keys : Except Nat Unit
  best_number : Nat
  best_hash : Nat
  network_worker_new : Except Nat Nat
  with_prometheus : Except Nat Nat
  start_rpc_servers : Except Nat Nat
  init_telemetry : Nat
  set_global_default : Except Nat Unit
  block_hash_genesis : Option Nat

/-- The backend fields build reads: an opaque handle, the optional
offchain storage, and (for light backends) the remote-blockchain
handle. -/
structure Backend where
  handle : Nat
  offchain_storage : Option Nat
  remote_blockchain : Nat
deriving DecidableEq

/-- Whether an unsafe RPC method call is denied, from sc_rpc. -/
inductive DenyUnsafe
  | yes
  | no
deriving DecidableEq

/-- Parameters to build, mirroring ServiceParams field for field; the
RPC extension type is a parameter as in the source. -/
structure ServiceParams (Rpc : Type) where
  config : Configuration
  client : Nat
  backend : Backend
  keystore : Nat
  on_demand : Option Nat
  import_queue : Nat
  finality_proof_request_builder : Option Nat
  finality_proof_provider : Option Nat
  transaction_pool : Nat
  rpc_extensions_builder : DenyUnsafe → Rpc
  remote_blockchain : Option Nat
  block_announce_validator_builder : Option (Nat → Nat)

/-- System information assembled for the system RPC module. -/
structure SystemInfo where
  chain_name : String
  impl_name : String
  impl_version : String
  properties : Nat
  chain_type : Nat
deriving DecidableEq

/-- The chain RPC module: either the light or the full constructor was
invoked, with the arguments recorded. -/
inductive ChainRpc
  | new_light (client subscriptions remote_blockchain on_demand : Nat)
  | new_full (client subscriptions : Nat)
deriving DecidableEq

/-- The state RPC module, light or full. -/
inductive StateRpc
  | new_light (client subscriptions remote_blockchain on_demand : Nat)
  | new_full (client subscriptions : Nat)
deriving DecidableEq

/-- The child-state RPC module, light or full. -/
inductive ChildStateRpc
  | new_light (client subscriptions remote_blockchain on_demand : Nat)
  | new_full (client subscriptions : Nat)
deriving DecidableEq

/-- Whether the light chain constructor was used. -/
def ChainRpc.isLightVariant : ChainRpc → Bool
  | .new_light _ _ _ _ => true
  | .new_full _ _ => false

/-- Whether the light state constructor was used. -/
def StateRpc.isLightVariant : StateRpc → Bool
  | .new_light _ _ _ _ => true
  | .new_full _ _ => false

/-- Whether the light child-state constructor was used. -/
def ChildStateRpc.isLightVariant : ChildStateRpc → Bool
  | .new_light _ _ _ _ => true
  | .new_full _ _ => false

/-- The author RPC module, recording the Author::new arguments. -/
structure AuthorRpc where
  client : Nat
  pool : Nat
  subscriptions : Nat
  keystore : Nat
  deny : DenyUnsafe
deriving DecidableEq

/-- The system RPC module, recording the System::new arguments. -/
structure SystemRpc where
  info : SystemInfo
  send : Nat
  deny : DenyUnsafe
deriving DecidableEq

/-- The offchain RPC module, recording the Offchain::new arguments. -/
structure OffchainRpc where
  storage : Nat
  deny : DenyUnsafe
deriving DecidableEq

/-- The dispatch table produced by gen_handler: the component RPC
modules and the built extension, in the order they are delegated. -/
structure RpcHandler (Rpc : Type) where
  state : StateRpc
  child_state : ChildStateRpc
  chain : ChainRpc
  offchain : Option OffchainRpc
  author : AuthorRpc
  system : SystemRpc
  extension : Rpc

/-- The system RPC request channel created by build; an opaque handle. -/
def system_rpc_tx : Nat := 0

/-- The subscription manager created per gen_handler call; an opaque
handle. -/
def subscriptions_handle : Nat := 0

/-- Shallow embedding of gen_handler: selects light chain/state/child
state modules exactly when both the remote-blockchain handle and the
on-demand handle are present, then builds the author, system and
optional offchain modules and the lazily built extension. -/
def gen_handler {Rpc : Type} (deny : DenyUnsafe) (config : Configuration)
    (client transaction_pool keystore : Nat)
    (on_demand : Option Nat) (remote_blockchain : Option Nat)
    (rpc_extensions_builder : DenyUnsafe → Rpc)
    (offchain_storage : Option Nat) (tx : Nat) : RpcHandler Rpc :=
  let system_info : SystemInfo :=
    { chain_name := config.chain_spec.name
      impl_name := config.impl_name
      impl_version := config.impl_version
      properties := config.chain_spec.properties
      chain_type := config.chain_spec.chain_type }
  let subs := subscriptions_handle
  let triple : ChainRpc × StateRpc × ChildStateRpc :=
    match remote_blockchain, on_demand with
    | some rb, some od =>
        (ChainRpc.new_light client subs rb od,
         StateRpc.new_light client subs rb od,
         ChildStateRpc.new_light client subs rb od)
    | _, _ =>
        (ChainRpc.new_full client subs,
         StateRpc.new_full client subs,
         ChildStateRpc.new_full client subs)
  { state := triple.2.1
    child_state := triple.2.2
    chain := triple.1
    offchain := offchain_storage.map (fun s => { storage := s, deny := deny })
    author :=
      { client := client, pool := transaction_pool, subscriptions := subs
        keystore := keystore, deny := deny }
    system := { info := system_info, send := tx, deny := deny }
    extension := rpc_extensions_builder deny }

/-- The transaction-pool-to-network adapter, recording whether external
transactions are accepted. -/
structure TransactionPoolAdapter where
  imports_external_transactions : Bool
  pool : Nat
  client : Nat
deriving DecidableEq

/-- The block-announce validator passed to the network worker: the
permissive default, or the output of the supplied builder. -/
inductive BlockAnnounceValidator
  | defaultValidator
  | custom (v : Nat)
deriving DecidableEq

/-- The crate-level default protocol id used when the chain spec does
not configure one. -/
def DEFAULT_PROTOCOL_ID : String := "sup"

/-- The warning logged when the chain spec configures no protocol id. -/
def protocolWarnMsg : String :=
  "Using default protocol ID because none is configured in the chain specs"

/-- What build_network hands to the network worker, as far as the
claims observe it: the service handle, the role, the protocol id, the
pool adapter, the block-announce validator and the bootnode flag. -/
structure NetworkBuilt where
  network : Nat
  role : Role
  protocol_id : String
  transaction_pool_adapter : TransactionPoolAdapter
  block_announce_validator : BlockAnnounceValidator
  has_bootnodes : Bool
deriving DecidableEq

/-- Shallow embedding of build_network: constructs the pool adapter,
resolves the protocol id (warning on the default), resolves the
block-announce validator, and runs NetworkWorker::new, which may
fail. Returns the emitted trace alongside the result. -/
def build_network (config : Configuration) (client transaction_pool : Nat)
    (block_announce_validator_builder : Option (Nat → Nat))
    (ext : Externals) : List Event × Except Error NetworkBuilt :=
  let adapter : TransactionPoolAdapter :=
    { imports_external_transactions := ! config.role.isLight
      pool := transaction_pool
      client := client }
  let pidStep : List Event × String :=
    match config.chain_spec.protocol_id with
    | some pid => ([], pid)
    | none => ([Event.warn protocolWarnMsg], DEFAULT_PROTOCOL_ID)
  let validator : BlockAnnounceValidator :=
    match block_announce_validator_builder with
    | some f => BlockAnnounceValidator.custom (f client)
    | none => BlockAnnounceValidator.defaultValidator
  match ext.network_worker_new with
  | .error e => (pidStep.1, .error (Error.networkWorker e))
  | .ok n =>
      (pidStep.1,
       .ok { network := n
             role := config.role
             protocol_id := pidStep.2
             transaction_pool_adapter := adapter
             block_announce_validator := validator
             has_bootnodes := ! config.network.boot_nodes.isEmpty })

/-- An offchain-workers instance, recording the OffchainWorkers::new
arguments. -/
structure OffchainWorkers where
  client : Nat
  db : Nat
deriving DecidableEq

/-- The warning logged when offchain workers are enabled but the
backend reports no offchain storage. -/
def offchainWarnMsg : String :=
  "Offchain workers disabled, due to lack of offchain storage support in backend."

/-- The offchain-worker decision in build: the trace it contributes and
the optional workers instance, from the config flag and the backend
storage. -/
def offchainStep {Rpc : Type} (params : ServiceParams Rpc) :
    List Event × Option OffchainWorkers :=
  match params.config.offchain_worker.enabled, params.backend.offchain_storage with
  | true, some db => ([], some { client := params.client, db := db })
  | true, none => ([Event.warn offchainWarnMsg], none)
  | false, _ => ([], none)

/-- The Prometheus step in build: with a configured registry it runs
MetricsService::with_prometheus (fallible) and spawns the exporter
endpoint; otherwise MetricsService::new (handle 0). -/
def promStep (config : Configuration) (ext : Externals) :
    List Event × Except Error Nat :=
  match config.prometheus_config with
  | some _ =>
      (match ext.with_prometheus with
       | .error e => ([], .error (Error.prometheusMetrics e))
       | .ok m =>
           ([Event.spawnTask "prometheus-endpoint" TaskKind.cooperative], .ok m))
  | none => ([], .ok 0)

/-- Shallow embedding of build_telemetry: reads the identification
fields, calls init_telemetry with the taken one-shot external
transport (the sole Configuration mutation), and spawns the telemetry
worker. Returns the telemetry handle, the updated configuration and
the contributed trace. -/
def build_telemetry (config : Configuration) (endpoints network genesis_hash : Nat)
    (ext : Externals) : Nat × Configuration × List Event :=
  let telemetry := ext.init_telemetry
  let config2 := { config with telemetry_external_transport := none }
  (telemetry, config2, [Event.spawnTask "telemetry-worker" TaskKind.cooperative])

/-- The telemetry step in build: build_telemetry exactly when telemetry
endpoints are configured, otherwise nothing. -/
def telemetryStep (config : Configuration) (network : Nat) (ext : Externals) :
    List Event × Configuration :=
  match config.telemetry_endpoints with
  | some endpoints =>
      let t := build_telemetry config endpoints network
        ((ext.block_hash_genesis).getD 0) ext
      (t.2.2, t.2.1)
  | none => ([], config)

/-- The tracing step in build: with configured tracing targets, a
failed global-subscriber installation is logged at error level and
nothing else happens. -/
def tracingEvents (config : Configuration) (ext : Externals) : List Event :=
  match config.tracing_targets with
  | some _ =>
      (match ext.set_global_default with
       | .ok _ => []
       | .error _ => [Event.errorLog "Unable to set global default subscriber"])
  | none => []

/-- The handle bundle returned by build, as far as the claims observe
it: the network service handle, the internal RPC handler bundle and
the optional offchain workers. -/
structure ServiceComponents (Rpc : Type) where
  network : Nat
  rpc_handlers : RpcHandler Rpc
  offchain_workers : Option OffchainWorkers

/-- Shallow embedding of build: session keys, startup log and
telemetry, network construction, network-worker spawn (blocking),
offchain-worker decision, the three forwarding task spawns, the
Prometheus step, the two periodic telemetry task spawns, RPC server
startup, the internal RPC handler with the unsafe check disabled, the
telemetry step, the tracing step and the informant spawn. Returns the
emitted trace and, on success, the components together with the final
Configuration value (returned to make the frame condition on the
configuration observable). -/
def build {Rpc : Type} (params : ServiceParams Rpc) (ext : Externals) :
    List Event × Except Error (ServiceComponents Rpc × Configuration) :=
  let config := params.config
  match ext.generate_initial_session_keys with
  | .error e => ([], .error (Error.sessionKeys e))
  | .ok _ =>
  let ev0 : List Event :=
    [Event.infoLog "Highest known block",
     Event.telemetryRecord "node.start"
       [("height", ext.best_number), ("best", ext.best_hash)]]
  let netStep := build_network config params.client params.transaction_pool
      params.block_announce_validator_builder ext
  match netStep.2 with
  | .error e => (ev0 ++ netStep.1, .error e)
  | .ok net =>
  let ev1 := ev0 ++ netStep.1
      ++ [Event.spawnTask "network-worker" TaskKind.blocking]
  let ocStep := offchainStep params
  let offchain_workers := ocStep.2
  let ev2 := ev1 ++ ocStep.1
      ++ [Event.spawnTask "txpool-notifications" TaskKind.cooperative]
      ++ (match offchain_workers with
          | some _ => [Event.spawnTask "offchain-notifications" TaskKind.cooperative]
          | none => [])
      ++ [Event.spawnTask "on-transaction-imported" TaskKind.cooperative]
  let pStep := promStep config ext
  match pStep.2 with
  | .error e => (ev2 ++ pStep.1, .error e)
  | .ok _ =>
  let ev3 := ev2 ++ pStep.1
      ++ [Event.spawnTask "telemetry-periodic-send" TaskKind.cooperative,
          Event.spawnTask "telemetry-periodic-network-state" TaskKind.cooperative]
  match ext.start_rpc_servers with
  | .error e => (ev3, .error (Error.rpcServers e))
  | .ok _ =>
  let rpc_handlers := gen_handler DenyUnsafe.no config params.client
      params.transaction_pool params.keystore params.on_demand
      params.remote_blockchain params.rpc_extensions_builder
      params.backend.offchain_storage system_rpc_tx
  let telStep := telemetryStep config net.network ext
  let config2 := telStep.2
  let ev4 := ev3 ++ telStep.1
  let ev5 := ev4 ++ tracingEvents config2 ext
      ++ [Event.spawnTask "informant" TaskKind.cooperative]
  (ev5,
   .ok ({ network := net.network
          rpc_handlers := rpc_handlers
          offchain_workers := offchain_workers },
        config2))

/-- A ready/future size snapshot of the transaction pool, as reported
by pool.status. -/
structure PoolStatus where
  ready : Nat
  future : Nat
deriving DecidableEq

/-- The telemetry record emitted after each propagation, carrying the
ready and future pool counts. -/
def txImportRecord (st : PoolStatus) : Event :=
  Event.telemetryRecord "txpool.import" [("ready", st.ready), ("future", st.future)]

/-- Shallow embedding of the transaction-notifications task body: the
import-notification stream is the list of emitted hashes paired with
the pool status observed while handling each; per element the network
propagation is requested and one telemetry record is emitted. -/
def transaction_notifications : List (Nat × PoolStatus) → List Event
  | [] => []
  | (h, st) :: rest =>
      Event.propagate h :: txImportRecord st :: transaction_notifications rest

/-- Shallow embedding of the telemetry-periodic-send task body: it
registers its channel on the status-sink registry with a 5000
millisecond interval, then ticks the metrics service once per received
status. -/
def telemetry_periodic_send (client_info : Nat) (pool_status : PoolStatus)
    (incoming : List Nat) : List Event :=
  Event.statusSinkPush 5000 ::
    incoming.map (fun net_status =>
      Event.metricsTick client_info pool_status.ready pool_status.future net_status)

/-- Shallow embedding of the telemetry-periodic-network-state task
body: it registers its channel on the status-sink registry with a
30-second interval, then emits one telemetry record per received
network state. -/
def telemetry_periodic_network_state (incoming : List Nat) : List Event :=
  Event.statusSinkPush 30000 ::
    incoming.map (fun ns => Event.telemetryRecord "system.network_state" [("state", ns)])

/-- The status-sink registration intervals appearing in a trace. -/
def sinkPushes (tr : List Event) : List Nat :=
  tr.filterMap (fun e =>
    match e with
    | .statusSinkPush i => some i
    | _ => none)

/-- The hashes propagated in a trace, in order. -/
def propagated (tr : List Event) : List Nat :=
  tr.filterMap (fun e =>
    match e with
    | .propagate h => some h
    | _ => none)

/-- The parts returned by new_light_parts, as opaque handles. -/
structure LightParts where
  client : Nat
  backend : Backend
  keystore : Nat
  on_demand : Nat

/-- One concrete choice per capability family of the Builder contract,
restricted to the light constructors that Builder::build_light
invokes; each family is an oracle over opaque handles. -/
structure BuilderImpl where
  new_light_parts : Configuration → Except Error LightParts
  transaction_pool_build_light : Configuration → Nat → Nat → Nat
  block_import_build_light : Nat → Backend → Nat → Except Error (Nat × Nat)
  select_chain_build_light : Backend → Nat
  import_queue_build_light : Configuration → Nat → Nat → Nat → Except Error Nat
  finality_proof_provider_build_light : Backend → Nat → Nat

/-- Shallow embedding of Builder::build_light: chains the light
constructors of each capability family and assembles the ServiceParams
record, with the constant no-op RPC extension builder and the
light-only handles populated. -/
def build_light (B : BuilderImpl) (config : Configuration) :
    Except Error (ServiceParams Unit) := do
  let parts ← B.new_light_parts config
  let transaction_pool :=
    B.transaction_pool_build_light config parts.client parts.on_demand
  let bi ← B.block_import_build_light parts.client parts.backend parts.on_demand
  let select_chain := B.select_chain_build_light parts.backend
  let import_queue :=
    ← B.import_queue_build_light config parts.client bi.1 select_chain
  let finality_proof_provider :=
    B.finality_proof_provider_build_light parts.backend parts.client
  Except.ok
    { config := config
      client := parts.client
      backend := parts.backend
      keystore := parts.keystore
      on_demand := some parts.on_demand
      import_queue := import_queue
      finality_proof_request_builder := some bi.2
      finality_proof_provider := some finality_proof_provider
      transaction_pool := transaction_pool
      rpc_extensions_builder := fun _ => ()
      remote_blockchain := some parts.backend.remote_blockchain
      block_announce_validator_builder := none }

/-- The trace build_network contributes: the default-protocol-id
warning exactly when the chain spec configures no protocol id. -/
def netEvents (config : Configuration) : List Event :=
  match config.chain_spec.protocol_id with
  | some _ => []
  | none => [Event.warn protocolWarnMsg]

/-- The protocol id the network is built with. -/
def protocolIdOf (config : Configuration) : String :=
  (config.chain_spec.protocol_id).getD DEFAULT_PROTOCOL_ID

/-- The block-announce validator the network is built with. -/
def validatorOf (b : Option (Nat → Nat)) (client : Nat) : BlockAnnounceValidator :=
  match b with
  | some f => BlockAnnounceValidator.custom (f client)
  | none => BlockAnnounceValidator.defaultValidator

/-- Characterization of build_network when NetworkWorker::new
succeeds. -/
lemma build_network_ok (config : Configuration) (client pool : Nat)
    (b : Option (Nat → Nat)) (ext : Externals) (n : Nat)
    (h : ext.network_worker_new = .ok n) :
    build_network config client pool b ext =
      (netEvents config,
       .ok { network := n
             role := config.role
             protocol_id := protocolIdOf config
             transaction_pool_adapter :=
               { imports_external_transactions := ! config.role.isLight
                 pool := pool
                 client := client }
             block_announce_validator := validatorOf b client
             has_bootnodes := ! config.network.boot_nodes.isEmpty }) := by
  cases hp : config.chain_spec.protocol_id <;> cases b <;>
    simp [build_network, netEvents, protocolIdOf, validatorOf, h, hp]

/-- The trace the Prometheus step contributes on success. -/
def promEvents (config : Configuration) : List Event :=
  match config.prometheus_config with
  | some _ => [Event.spawnTask "prometheus-endpoint" TaskKind.cooperative]
  | none => []

/-- Characterization of the Prometheus step when with_prometheus
succeeds. -/
lemma promStep_ok (config : Configuration) (ext : Externals) (m : Nat)
    (h : ext.with_prometheus = .ok m) :
    promStep config ext =
      (promEvents config,
       .ok (match config.prometheus_config with
            | some _ => m
            | none => 0)) := by
  cases hp : config.prometheus_config <;> simp [promStep, promEvents, h, hp]

/-- The trace the telemetry step contributes. -/
def telemetryEvents (config : Configuration) : List Event :=
  match config.telemetry_endpoints with
  | some _ => [Event.spawnTask "telemetry-worker" TaskKind.cooperative]
  | none => []

/-- The configuration value after the telemetry step: the one-shot
external transport is taken exactly when telemetry endpoints are
configured. -/
def finalConfigOf (config : Configuration) : Configuration :=
  match config.telemetry_endpoints with
  | some _ => { config with telemetry_external_transport := none }
  | none => config

/-- Characterization of the telemetry step. -/
lemma telemetryStep_eq (config : Configuration) (net : Nat) (ext : Externals) :
    telemetryStep config net ext = (telemetryEvents config, finalConfigOf config) := by
  cases h : config.telemetry_endpoints <;>
    simp [telemetryStep, telemetryEvents, finalConfigOf, build_telemetry, h]

/-- The offchain-notifications spawn, present exactly when offchain
workers were constructed. -/
def offSpawnEvents {Rpc : Type} (params : ServiceParams Rpc) : List Event :=
  match (offchainStep params).2 with
  | some _ => [Event.spawnTask "offchain-notifications" TaskKind.cooperative]
  | none => []

/-- The startup log line and telemetry record emitted right after the
session keys are generated. -/
def startEvents (ext : Externals) : List Event :=
  [Event.infoLog "Highest known block",
   Event.telemetryRecord "node.start"
     [("height", ext.best_number), ("best", ext.best_hash)]]

/-- The full trace of a successful run of build. -/
def okTrace {Rpc : Type} (params : ServiceParams Rpc) (ext : Externals) : List Event :=
  startEvents ext
  ++ netEvents params.config
  ++ [Event.spawnTask "network-worker" TaskKind.blocking]
  ++ (offchainStep params).1
  ++ [Event.spawnTask "txpool-notifications" TaskKind.cooperative]
  ++ offSpawnEvents params
  ++ [Event.spawnTask "on-transaction-imported" TaskKind.cooperative]
  ++ promEvents params.config
  ++ [Event.spawnTask "telemetry-periodic-send" TaskKind.cooperative,
      Event.spawnTask "telemetry-periodic-network-state" TaskKind.cooperative]
  ++ telemetryEvents params.config
  ++ tracingEvents (finalConfigOf params.config) ext
  ++ [Event.spawnTask "informant" TaskKind.cooperative]

/-- The components of a successful run of build. -/
def okComponents {Rpc : Type} (params : ServiceParams Rpc) (n : Nat) :
    ServiceComponents Rpc :=
  { network := n
    rpc_handlers := gen_handler DenyUnsafe.no params.config params.client
      params.transaction_pool params.keystore params.on_demand
      params.remote_blockchain params.rpc_extensions_builder
      params.backend.offchain_storage system_rpc_tx
    offchain_workers := (offchainStep params).2 }

/-- Characterization of build when the four fallible collaborator calls
succeed: the run succeeds with the stated trace, components and final
configuration, for every setting of the remaining configuration. -/
lemma build_ok {Rpc : Type} (params : ServiceParams Rpc) (ext : Externals)
    (n m r : Nat)
    (h1 : ext.generate_initial_session_keys = .ok ())
    (h2 : ext.network_worker_new = .ok n)
    (h3 : ext.with_prometheus = .ok m)
    (h4 : ext.start_rpc_servers = .ok r) :
    build params ext =
      (okTrace params ext,
       .ok (okComponents params n, finalConfigOf params.config)) := by
  simp [build, h1, h4, build_network_ok _ _ _ _ _ _ h2, promStep_ok _ _ _ h3,
    telemetryStep_eq, okTrace, okComponents, offSpawnEvents, startEvents]

/-- A sample chain spec with a configured protocol id. -/
def sampleChainSpec : ChainSpec :=
  { name := "dev", protocol_id := some "dot", properties := 0, chain_type := 0 }

/-- A sample full-node configuration with every optional feature off. -/
def sampleConfig : Configuration :=
  { role := Role.full
    dev_key_seed := none
    offchain_worker := { enabled := false, indexing_enabled := false }
    prometheus_config := none
    telemetry_endpoints := none
    telemetry_external_transport := none
    tracing_targets := none
    tracing_receiver := 0
    chain_spec := sampleChainSpec
    base_path := none
    announce_block := true
    informant_output_format := 0
    network := { node_name := "node", boot_nodes := [] }
    impl_name := "substrate"
    impl_version := "2.0" }

/-- A sample oracle record in which every collaborator call succeeds. -/
def sampleExt : Externals :=
  { generate_initial_session_keys := .ok ()
    best_number := 10
    best_hash := 11
    network_worker_new := .ok 7
    with_prometheus := .ok 1
    start_rpc_servers := .ok 2
    init_telemetry := 3
    set_global_default := .ok ()
    block_hash_genesis := some 5 }

/-- Sample service parameters for a full node. -/
def sampleParams : ServiceParams Unit :=
  { config := sampleConfig
    client := 1
    backend := { handle := 2, offchain_storage := none, remote_blockchain := 9 }
    keystore := 3
    on_demand := none
    import_queue := 4
    finality_proof_request_builder := none
    finality_proof_provider := none
    transaction_pool := 5
    rpc_extensions_builder := fun _ => ()
    remote_blockchain := none
    block_announce_validator_builder := none }

/-- Every element of the start trace is the startup log line or the
startup telemetry record. -/
lemma startEvents_mem {ext : Externals} {e : Event} (h : e ∈ startEvents ext) :
    e = Event.infoLog "Highest known block"
    ∨ ∃ pl, e = Event.telemetryRecord "node.start" pl := by
  simp [startEvents] at h
  rcases h with h | h
  · exact Or.inl h
  · exact Or.inr ⟨_, h⟩

/-- Every element of the build_network trace is the protocol-id
warning. -/
lemma netEvents_mem {config : Configuration} {e : Event}
    (h : e ∈ netEvents config) : e = Event.warn protocolWarnMsg := by
  cases hp : config.chain_spec.protocol_id <;> simp [netEvents, hp] at h
  exact h

/-- Every element of the offchain-step trace is the missing-storage
warning. -/
lemma offchainStep_mem {Rpc : Type} {params : ServiceParams Rpc} {e : Event}
    (h : e ∈ (offchainStep params).1) : e = Event.warn offchainWarnMsg := by
  cases he : params.config.offchain_worker.enabled <;>
    cases hs : params.backend.offchain_storage <;>
    simp [offchainStep, he, hs] at h
  exact h

/-- Every element of the offchain-notifications segment is that spawn. -/
lemma offSpawnEvents_mem {Rpc : Type} {params : ServiceParams Rpc} {e : Event}
    (h : e ∈ offSpawnEvents params) :
    e = Event.spawnTask "offchain-notifications" TaskKind.cooperative := by
  cases ho : (offchainStep params).2 <;> simp [offSpawnEvents, ho] at h
  exact h

/-- Every element of the Prometheus segment is the exporter spawn. -/
lemma promEvents_mem {config : Configuration} {e : Event}
    (h : e ∈ promEvents config) :
    e = Event.spawnTask "prometheus-endpoint" TaskKind.cooperative := by
  cases hp : config.prometheus_config <;> simp [promEvents, hp] at h
  exact h

/-- Every element of the telemetry segment is the telemetry-worker
spawn. -/
lemma telemetryEvents_mem {config : Configuration} {e : Event}
    (h : e ∈ telemetryEvents config) :
    e = Event.spawnTask "telemetry-worker" TaskKind.cooperative := by
  cases ht : config.telemetry_endpoints <;> simp [telemetryEvents, ht] at h
  exact h

/-- Every element of the tracing segment is the error-level log line. -/
lemma tracingEvents_mem {config : Configuration} {ext : Externals} {e : Event}
    (h : e ∈ tracingEvents config ext) :
    e = Event.errorLog "Unable to set global default subscriber" := by
  cases ht : config.tracing_targets <;> simp [tracingEvents, ht] at h
  · cases hg : ext.set_global_default <;> simp [hg] at h
    exact h

/-- Claim C2: gen_handler selects the light chain, state and
child-state RPC constructors exactly when both the remote-blockchain
handle and the on-demand handle are present, and the full constructors
otherwise; the author, system and offchain modules it builds do not
depend on those two handles at all. -/
theorem c2_gen_handler_light_full_selection {Rpc : Type} (deny : DenyUnsafe)
    (config : Configuration) (client pool keystore : Nat)
    (od rb : Option Nat) (builder : DenyUnsafe → Rpc)
    (os : Option Nat) (tx : Nat) :
    ((gen_handler deny config client pool keystore od rb builder os tx).chain.isLightVariant
        = (rb.isSome && od.isSome)
      ∧ (gen_handler deny config client pool keystore od rb builder os tx).state.isLightVariant
        = (rb.isSome && od.isSome)
      ∧ (gen_handler deny config client pool keystore od rb builder os tx).child_state.isLightVariant
        = (rb.isSome && od.isSome))
    ∧ (gen_handler deny config client pool keystore od rb builder os tx).author
        = (gen_handler deny config client pool keystore none none builder os tx).author
    ∧ (gen_handler deny config client pool keystore od rb builder os tx).system
        = (gen_handler deny config client pool keystore none none builder os tx).system
    ∧ (gen_handler deny config client pool keystore od rb builder os tx).offchain
        = (gen_handler deny config client pool keystore none none builder os tx).offchain := by
  cases rb <;> cases od <;>
    simp [gen_handler, ChainRpc.isLightVariant, StateRpc.isLightVariant,
      ChildStateRpc.isLightVariant]

/-- Length of the transaction-notifications trace. -/
lemma transaction_notifications_length (s : List (Nat × PoolStatus)) :
    (transaction_notifications s).length = 2 * s.length := by
  induction s with
  | nil => simp [transaction_notifications]
  | cons p tl ih =>
      cases p
      simp [transaction_notifications, ih]
      omega

/-- The hashes propagated by the transaction-notifications task are the
emitted hashes in order. -/
lemma transaction_notifications_propagated (s : List (Nat × PoolStatus)) :
    propagated (transaction_notifications s) = s.map Prod.fst := by
  induction s with
  | nil => simp [transaction_notifications, propagated]
  | cons p tl ih =>
      cases p
      simp [transaction_notifications, propagated, txImportRecord] at ih ⊢
      exact ih

/-- Pointwise shape of the transaction-notifications trace: position
2i is the propagation of the i-th emitted hash and position 2i+1 is
the telemetry record with the status observed there. -/
lemma transaction_notifications_get (s : List (Nat × PoolStatus)) :
    ∀ (i : Nat) (hi : i < s.length),
      (transaction_notifications s)[2 * i]?
          = some (Event.propagate (s.get ⟨i, hi⟩).1)
      ∧ (transaction_notifications s)[2 * i + 1]?
          = some (txImportRecord (s.get ⟨i, hi⟩).2) := by
  induction s with
  | nil => intro i hi; simp at hi
  | cons p tl ih =>
      intro i hi
      cases p with
      | mk h st =>
        cases i with
        | zero => simp [transaction_notifications]
        | succ j =>
            have hj : j < tl.length := by simpa using hi
            have hrw : 2 * (j + 1) = 2 * j + 1 + 1 := by omega
            rw [hrw]
            simp only [transaction_notifications, List.getElem?_cons_succ]
            exact ih j hj

/-- Claim C3: the transaction-notifications task propagates exactly the
hashes the import-notification stream emits, once per emission and in
emission order, each propagation immediately followed by one telemetry
record carrying the ready and future pool counts observed there; no
hash outside the stream is propagated. -/
theorem c3_transaction_bridge (s : List (Nat × PoolStatus)) :
    propagated (transaction_notifications s) = s.map Prod.fst
    ∧ (transaction_notifications s).length = 2 * s.length
    ∧ (∀ (i : Nat) (hi : i < s.length),
        (transaction_notifications s)[2 * i]?
            = some (Event.propagate (s.get ⟨i, hi⟩).1)
        ∧ (transaction_notifications s)[2 * i + 1]?
            = some (txImportRecord (s.get ⟨i, hi⟩).2))
    ∧ (∀ h, Event.propagate h ∈ transaction_notifications s → h ∈ s.map Prod.fst) := by
  refine ⟨transaction_notifications_propagated s,
    transaction_notifications_length s,
    transaction_notifications_get s, ?_⟩
  intro h hm
  have : h ∈ propagated (transaction_notifications s) := by
    simp [propagated, List.mem_filterMap]
    exact ⟨Event.propagate h, hm, rfl⟩
  rwa [transaction_notifications_propagated] at this

/-- Witness for claim C3 at a concrete two-element stream. -/
theorem c3_transaction_bridge_witness :
    propagated (transaction_notifications [(21, ⟨2, 3⟩), (22, ⟨1, 0⟩)]) = [21, 22]
    ∧ (transaction_notifications [(21, ⟨2, 3⟩), (22, ⟨1, 0⟩)])[2]?
        = some (Event.propagate 22) := by
  have h := c3_transaction_bridge [(21, ⟨2, 3⟩), (22, ⟨1, 0⟩)]
  refine ⟨h.1, ?_⟩
  have h2 := (h.2.2.1 1 (by decide)).1
  simpa using h2

/-- Claim C7: the transaction-pool adapter handed to the network worker
accepts externally announced transactions exactly when the configured
role is not Light. -/
theorem c7_pool_adapter_light (config : Configuration) (client pool : Nat)
    (b : Option (Nat → Nat)) (ext : Externals) (nb : NetworkBuilt)
    (h : (build_network config client pool b ext).2 = Except.ok nb) :
    nb.transaction_pool_adapter.imports_external_transactions = true
      ↔ config.role ≠ Role.light := by
  rcases hn : ext.network_worker_new with e | n
  · simp [build_network, hn] at h
  · rw [build_network_ok config client pool b ext n hn] at h
    simp only [Except.ok.injEq] at h
    subst h
    cases config.role <;> simp [Role.isLight]

/-- Witness for claim C7 at a concrete full-node configuration. -/
theorem c7_pool_adapter_light_witness :
    ∃ nb, (build_network sampleConfig 1 5 none sampleExt).2 = Except.ok nb
      ∧ nb.transaction_pool_adapter.imports_external_transactions = true := by
  refine ⟨{ network := 7
            role := Role.full
            protocol_id := "dot"
            transaction_pool_adapter :=
              { imports_external_transactions := true, pool := 5, client := 1 }
            block_announce_validator := BlockAnnounceValidator.defaultValidator
            has_bootnodes := false }, rfl, ?_⟩
  exact (c7_pool_adapter_light sampleConfig 1 5 none sampleExt _ rfl).mpr
    (by simp [sampleConfig])

/-- Claim C8: build_network uses the chain-spec protocol id without any
warning when it is configured, and the crate default with exactly one
warning when it is not; the block-announce validator is the permissive
default when no builder is supplied and otherwise the output of the
supplied builder applied to the client. -/
theorem c8_protocol_and_validator (config : Configuration) (client pool : Nat)
    (b : Option (Nat → Nat)) (ext : Externals) (nb : NetworkBuilt)
    (h : (build_network config client pool b ext).2 = Except.ok nb) :
    (∀ pid, config.chain_spec.protocol_id = some pid →
        nb.protocol_id = pid
        ∧ warnCount (build_network config client pool b ext).1 = 0)
    ∧ (config.chain_spec.protocol_id = none →
        nb.protocol_id = DEFAULT_PROTOCOL_ID
        ∧ warnCount (build_network config client pool b ext).1 = 1)
    ∧ (b = none →
        nb.block_announce_validator = BlockAnnounceValidator.defaultValidator)
    ∧ (∀ f, b = some f →
        nb.block_announce_validator = BlockAnnounceValidator.custom (f client)) := by
  rcases hn : ext.network_worker_new with e | n
  · simp [build_network, hn] at h
  · rw [build_network_ok config client pool b ext n hn] at h ⊢
    simp only [Except.ok.injEq] at h
    subst h
    refine ⟨?_, ?_, ?_, ?_⟩
    · intro pid hp
      simp [protocolIdOf, hp, warnCount, netEvents, Event.isWarn]
    · intro hp
      simp [protocolIdOf, hp, warnCount, netEvents, Event.isWarn]
    · intro hb
      simp [validatorOf, hb]
    · intro f hb
      simp [validatorOf, hb]

/-- Witness for claim C8 at a concrete configuration with a configured
protocol id and no validator builder. -/
theorem c8_protocol_and_validator_witness :
    ∃ nb, (build_network sampleConfig 1 5 none sampleExt).2 = Except.ok nb
      ∧ nb.protocol_id = "dot"
      ∧ warnCount (build_network sampleConfig 1 5 none sampleExt).1 = 0
      ∧ nb.block_announce_validator = BlockAnnounceValidator.defaultValidator := by
  refine ⟨{ network := 7
            role := Role.full
            protocol_id := "dot"
            transaction_pool_adapter :=
              { imports_external_transactions := true, pool := 5, client := 1 }
            block_announce_validator := BlockAnnounceValidator.defaultValidator
            has_bootnodes := false }, rfl, ?_⟩
  have h := c8_protocol_and_validator sampleConfig 1 5 none sampleExt _ rfl
  exact ⟨(h.1 "dot" rfl).1, (h.1 "dot" rfl).2, h.2.2.1 rfl⟩

/-- Claim C10: on every successful Builder::build_light run the RPC
extension builder in the returned ServiceParams is the constant no-op
builder, returning the unit extension for every DenyUnsafe value. -/
theorem c10_light_noop_rpc (B : BuilderImpl) (config : Configuration)
    (params : ServiceParams Unit)
    (h : build_light B config = Except.ok params) :
    params.rpc_extensions_builder = (fun _ => ())
    ∧ ∀ d, params.rpc_extensions_builder d = () := by
  exact ⟨funext (fun d => rfl), fun d => rfl⟩

/-- A trivial concrete choice per capability family on which every
light constructor succeeds. -/
def trivialBuilder : BuilderImpl :=
  { new_light_parts := fun _ => .ok
      { client := 1
        backend := { handle := 2, offchain_storage := none, remote_blockchain := 9 }
        keystore := 3
        on_demand := 4 }
    transaction_pool_build_light := fun _ _ _ => 5
    block_import_build_light := fun _ _ _ => .ok (6, 7)
    select_chain_build_light := fun _ => 8
    import_queue_build_light := fun _ _ _ _ => .ok 10
    finality_proof_provider_build_light := fun _ _ => 11 }

/-- The ServiceParams returned by build_light on the trivial builder
and the sample configuration. -/
def c10Params : ServiceParams Unit :=
  { config := sampleConfig
    client := 1
    backend := { handle := 2, offchain_storage := none, remote_blockchain := 9 }
    keystore := 3
    on_demand := some 4
    import_queue := 10
    finality_proof_request_builder := some 7
    finality_proof_provider := some 11
    transaction_pool := 5
    rpc_extensions_builder := fun _ => ()
    remote_blockchain := some 9
    block_announce_validator_builder := none }

/-- Witness for claim C10 at the trivial builder. -/
theorem c10_light_noop_rpc_witness :
    build_light trivialBuilder sampleConfig = Except.ok c10Params
    ∧ c10Params.rpc_extensions_builder DenyUnsafe.yes = () := by
  have h : build_light trivialBuilder sampleConfig = Except.ok c10Params := rfl
  exact ⟨h, (c10_light_noop_rpc trivialBuilder sampleConfig c10Params h).2 DenyUnsafe.yes⟩

/-- In the successful-run trace, occurrences of the missing-storage
warning come only from the offchain step. -/
lemma okTrace_count_offchain_warn {Rpc : Type} (params : ServiceParams Rpc)
    (ext : Externals) :
    (okTrace params ext).count (Event.warn offchainWarnMsg)
      = ((offchainStep params).1).count (Event.warn offchainWarnMsg) := by
  have hs : Event.warn offchainWarnMsg ∉ startEvents ext := by
    intro hm; rcases startEvents_mem hm with h | ⟨pl, h⟩ <;> simp at h
  have hn : Event.warn offchainWarnMsg ∉ netEvents params.config := by
    intro hm; exact absurd (netEvents_mem hm) (by decide)
  have ho : Event.warn offchainWarnMsg ∉ offSpawnEvents params := by
    intro hm; exact absurd (offSpawnEvents_mem hm) (by decide)
  have hp : Event.warn offchainWarnMsg ∉ promEvents params.config := by
    intro hm; exact absurd (promEvents_mem hm) (by decide)
  have ht : Event.warn offchainWarnMsg ∉ telemetryEvents params.config := by
    intro hm; exact absurd (telemetryEvents_mem hm) (by decide)
  have htr : Event.warn offchainWarnMsg ∉ tracingEvents (finalConfigOf params.config) ext := by
    intro hm; exact absurd (tracingEvents_mem hm) (by decide)
  have d1 : ([Event.spawnTask "network-worker" TaskKind.blocking]).count
      (Event.warn offchainWarnMsg) = 0 := by decide
  have d2 : ([Event.spawnTask "txpool-notifications" TaskKind.cooperative]).count
      (Event.warn offchainWarnMsg) = 0 := by decide
  have d3 : ([Event.spawnTask "on-transaction-imported" TaskKind.cooperative]).count
      (Event.warn offchainWarnMsg) = 0 := by decide
  have d4 : ([Event.spawnTask "telemetry-periodic-send" TaskKind.cooperative,
      Event.spawnTask "telemetry-periodic-network-state" TaskKind.cooperative]).count
      (Event.warn offchainWarnMsg) = 0 := by decide
  have d5 : ([Event.spawnTask "informant" TaskKind.cooperative]).count
      (Event.warn offchainWarnMsg) = 0 := by decide
  simp [okTrace, List.count_append, List.count_eq_zero.mpr hs,
    List.count_eq_zero.mpr hn, List.count_eq_zero.mpr ho, List.count_eq_zero.mpr hp,
    List.count_eq_zero.mpr ht, List.count_eq_zero.mpr htr, d1, d2, d3, d4, d5]

/-- In the successful-run trace, the telemetry-periodic-send task is
spawned exactly once. -/
lemma okTrace_count_periodic_send {Rpc : Type} (params : ServiceParams Rpc)
    (ext : Externals) :
    (okTrace params ext).count
      (Event.spawnTask "telemetry-periodic-send" TaskKind.cooperative) = 1 := by
  have hs : Event.spawnTask "telemetry-periodic-send" TaskKind.cooperative
      ∉ startEvents ext := by
    intro hm; rcases startEvents_mem hm with h | ⟨pl, h⟩ <;> simp at h
  have hn : Event.spawnTask "telemetry-periodic-send" TaskKind.cooperative
      ∉ netEvents params.config := by
    intro hm; exact absurd (netEvents_mem hm) (by decide)
  have hoc : Event.spawnTask "telemetry-periodic-send" TaskKind.cooperative
      ∉ (offchainStep params).1 := by
    intro hm; exact absurd (offchainStep_mem hm) (by decide)
  have ho : Event.spawnTask "telemetry-periodic-send" TaskKind.cooperative
      ∉ offSpawnEvents params := by
    intro hm; exact absurd (offSpawnEvents_mem hm) (by decide)
  have hp : Event.spawnTask "telemetry-periodic-send" TaskKind.cooperative
      ∉ promEvents params.config := by
    intro hm; exact absurd (promEvents_mem hm) (by decide)
  have ht : Event.spawnTask "telemetry-periodic-send" TaskKind.cooperative
      ∉ telemetryEvents params.config := by
    intro hm; exact absurd (telemetryEvents_mem hm) (by decide)
  have htr : Event.spawnTask "telemetry-periodic-send" TaskKind.cooperative
      ∉ tracingEvents (finalConfigOf params.config) ext := by
    intro hm; exact absurd (tracingEvents_mem hm) (by decide)
  have d1 : ([Event.spawnTask "network-worker" TaskKind.blocking]).count
      (Event.spawnTask "telemetry-periodic-send" TaskKind.cooperative) = 0 := by decide
  have d2 : ([Event.spawnTask "txpool-notifications" TaskKind.cooperative]).count
      (Event.spawnTask "telemetry-periodic-send" TaskKind.cooperative) = 0 := by decide
  have d3 : ([Event.spawnTask "on-transaction-imported" TaskKind.cooperative]).count
      (Event.spawnTask "telemetry-periodic-send" TaskKind.cooperative) = 0 := by decide
  have d4 : ([Event.spawnTask "telemetry-periodic-send" TaskKind.cooperative,
      Event.spawnTask "telemetry-periodic-network-state" TaskKind.cooperative]).count
      (Event.spawnTask "telemetry-periodic-send" TaskKind.cooperative) = 1 := by decide
  have d5 : ([Event.spawnTask "informant" TaskKind.cooperative]).count
      (Event.spawnTask "telemetry-periodic-send" TaskKind.cooperative) = 0 := by decide
  simp [okTrace, List.count_append, List.count_eq_zero.mpr hs,
    List.count_eq_zero.mpr hn, List.count_eq_zero.mpr hoc, List.count_eq_zero.mpr ho,
    List.count_eq_zero.mpr hp, List.count_eq_zero.mpr ht, List.count_eq_zero.mpr htr,
    d1, d2, d3, d4, d5]

/-- In the successful-run trace, the telemetry-periodic-network-state
task is spawned exactly once. -/
lemma okTrace_count_periodic_network_state {Rpc : Type} (params : ServiceParams Rpc)
    (ext : Externals) :
    (okTrace params ext).count
      (Event.spawnTask "telemetry-periodic-network-state" TaskKind.cooperative) = 1 := by
  have hs : Event.spawnTask "telemetry-periodic-network-state" TaskKind.cooperative
      ∉ startEvents ext := by
    intro hm; rcases startEvents_mem hm with h | ⟨pl, h⟩ <;> simp at h
  have hn : Event.spawnTask "telemetry-periodic-network-state" TaskKind.cooperative
      ∉ netEvents params.config := by
    intro hm; exact absurd (netEvents_mem hm) (by decide)
  have hoc : Event.spawnTask "telemetry-periodic-network-state" TaskKind.cooperative
      ∉ (offchainStep params).1 := by
    intro hm; exact absurd (offchainStep_mem hm) (by decide)
  have ho : Event.spawnTask "telemetry-periodic-network-state" TaskKind.cooperative
      ∉ offSpawnEvents params := by
    intro hm; exact absurd (offSpawnEvents_mem hm) (by decide)
  have hp : Event.spawnTask "telemetry-periodic-network-state" TaskKind.cooperative
      ∉ promEvents params.config := by
    intro hm; exact absurd (promEvents_mem hm) (by decide)
  have ht : Event.spawnTask "telemetry-periodic-network-state" TaskKind.cooperative
      ∉ telemetryEvents params.config := by
    intro hm; exact absurd (telemetryEvents_mem hm) (by decide)
  have htr : Event.spawnTask "telemetry-periodic-network-state" TaskKind.cooperative
      ∉ tracingEvents (finalConfigOf params.config) ext := by
    intro hm; exact absurd (tracingEvents_mem hm) (by decide)
  have d1 : ([Event.spawnTask "network-worker" TaskKind.blocking]).count
      (Event.spawnTask "telemetry-periodic-network-state" TaskKind.cooperative) = 0 := by decide
  have d2 : ([Event.spawnTask "txpool-notifications" TaskKind.cooperative]).count
      (Event.spawnTask "telemetry-periodic-network-state" TaskKind.cooperative) = 0 := by decide
  have d3 : ([Event.spawnTask "on-transaction-imported" TaskKind.cooperative]).count
      (Event.spawnTask "telemetry-periodic-network-state" TaskKind.cooperative) = 0 := by decide
  have d4 : ([Event.spawnTask "telemetry-periodic-send" TaskKind.cooperative,
      Event.spawnTask "telemetry-periodic-network-state" TaskKind.cooperative]).count
      (Event.spawnTask "telemetry-periodic-network-state" TaskKind.cooperative) = 1 := by decide
  have d5 : ([Event.spawnTask "informant" TaskKind.cooperative]).count
      (Event.spawnTask "telemetry-periodic-network-state" TaskKind.cooperative) = 0 := by decide
  simp [okTrace, List.count_append, List.count_eq_zero.mpr hs,
    List.count_eq_zero.mpr hn, List.count_eq_zero.mpr hoc, List.count_eq_zero.mpr ho,
    List.count_eq_zero.mpr hp, List.count_eq_zero.mpr ht, List.count_eq_zero.mpr htr,
    d1, d2, d3, d4, d5]

/-- Claim C4: when the fallible collaborator calls succeed, an enabled
offchain-worker configuration over a backend without offchain storage
still lets build succeed, with no offchain workers and exactly one
missing-storage warning in the trace; with storage present the workers
are constructed from the client and the storage; with the feature
disabled there are no workers and no missing-storage warning. -/
theorem c4_offchain_workers {Rpc : Type} (params : ServiceParams Rpc)
    (ext : Externals) (n m r : Nat)
    (h1 : ext.generate_initial_session_keys = .ok ())
    (h2 : ext.network_worker_new = .ok n)
    (h3 : ext.with_prometheus = .ok m)
    (h4 : ext.start_rpc_servers = .ok r) :
    (params.config.offchain_worker.enabled = true →
      params.backend.offchain_storage = none →
        exceptIsOk (build params ext).2 = true
        ∧ (∃ comps cfg2, (build params ext).2 = Except.ok (comps, cfg2)
            ∧ comps.offchain_workers = none)
        ∧ (build params ext).1.count (Event.warn offchainWarnMsg) = 1)
    ∧ (∀ db, params.config.offchain_worker.enabled = true →
        params.backend.offchain_storage = some db →
        ∃ comps cfg2, (build params ext).2 = Except.ok (comps, cfg2)
          ∧ comps.offchain_workers = some { client := params.client, db := db })
    ∧ (params.config.offchain_worker.enabled = false →
        (∃ comps cfg2, (build params ext).2 = Except.ok (comps, cfg2)
          ∧ comps.offchain_workers = none)
        ∧ (build params ext).1.count (Event.warn offchainWarnMsg) = 0) := by
  rw [build_ok params ext n m r h1 h2 h3 h4]
  refine ⟨?_, ?_, ?_⟩
  · intro he hsto
    refine ⟨rfl, ⟨okComponents params n, finalConfigOf params.config, rfl, ?_⟩, ?_⟩
    · simp [okComponents, offchainStep, he, hsto]
    · rw [okTrace_count_offchain_warn]
      simp [offchainStep, he, hsto]
  · intro db he hsto
    refine ⟨okComponents params n, finalConfigOf params.config, rfl, ?_⟩
    simp [okComponents, offchainStep, he, hsto]
  · intro he
    refine ⟨⟨okComponents params n, finalConfigOf params.config, rfl, ?_⟩, ?_⟩
    · simp [okComponents, offchainStep, he]
    · rw [okTrace_count_offchain_warn]
      simp [offchainStep, he]

/-- Witness for claim C4 at a concrete configuration with offchain
workers enabled and a backend without offchain storage. -/
theorem c4_offchain_workers_witness :
    exceptIsOk (build
        { sampleParams with config :=
            { sampleConfig with offchain_worker :=
                { enabled := true, indexing_enabled := false } } }
        sampleExt).2 = true
    ∧ (build
        { sampleParams with config :=
            { sampleConfig with offchain_worker :=
                { enabled := true, indexing_enabled := false } } }
        sampleExt).1.count (Event.warn offchainWarnMsg) = 1 := by
  have h := c4_offchain_workers
    { sampleParams with config :=
        { sampleConfig with offchain_worker :=
            { enabled := true, indexing_enabled := false } } }
    sampleExt 7 1 2 rfl rfl rfl rfl
  have h1 := h.1 rfl rfl
  exact ⟨h1.1, h1.2.2⟩

/-- Claim C5: in every successful run of build, each of the two
periodic telemetry tasks is spawned exactly once, and those task
bodies register exactly one status-sink subscriber each: the
status-to-telemetry forwarder with a 5000 millisecond interval and the
network-state-to-telemetry forwarder with a 30-second interval. -/
theorem c5_periodic_status_sinks {Rpc : Type} (params : ServiceParams Rpc)
    (ext : Externals) (n m r : Nat)
    (h1 : ext.generate_initial_session_keys = .ok ())
    (h2 : ext.network_worker_new = .ok n)
    (h3 : ext.with_prometheus = .ok m)
    (h4 : ext.start_rpc_servers = .ok r) :
    (build params ext).1.count
        (Event.spawnTask "telemetry-periodic-send" TaskKind.cooperative) = 1
    ∧ (build params ext).1.count
        (Event.spawnTask "telemetry-periodic-network-state" TaskKind.cooperative) = 1
    ∧ (∀ (ci : Nat) (ps : PoolStatus) (incoming : List Nat),
        sinkPushes (telemetry_periodic_send ci ps incoming) = [5000])
    ∧ (∀ incoming : List Nat,
        sinkPushes (telemetry_periodic_network_state incoming) = [30000]) := by
  rw [build_ok params ext n m r h1 h2 h3 h4]
  refine ⟨okTrace_count_periodic_send params ext,
    okTrace_count_periodic_network_state params ext, ?_, ?_⟩
  · intro ci ps incoming
    simp only [telemetry_periodic_send, sinkPushes, List.filterMap_cons]
    rw [List.filterMap_map]
    simp [Function.comp, List.filterMap_eq_nil_iff]
  · intro incoming
    simp only [telemetry_periodic_network_state, sinkPushes, List.filterMap_cons]
    rw [List.filterMap_map]
    simp [Function.comp, List.filterMap_eq_nil_iff]

/-- Witness for claim C5 at the sample full-node run. -/
theorem c5_periodic_status_sinks_witness :
    (build sampleParams sampleExt).1.count
        (Event.spawnTask "telemetry-periodic-send" TaskKind.cooperative) = 1
    ∧ sinkPushes (telemetry_periodic_network_state [4, 5]) = [30000] := by
  have h := c5_periodic_status_sinks sampleParams sampleExt 7 1 2 rfl rfl rfl rfl
  exact ⟨h.1, h.2.2.2 [4, 5]⟩

/-- Claim C6: every successful run of build constructs one RPC handler
bundle with the unsafe-method check disabled and returns it in the
components; its author, system and offchain modules all carry the
DenyUnsafe.no flag. -/
theorem c6_internal_rpc_handler {Rpc : Type} (params : ServiceParams Rpc)
    (ext : Externals) (n m r : Nat)
    (h1 : ext.generate_initial_session_keys = .ok ())
    (h2 : ext.network_worker_new = .ok n)
    (h3 : ext.with_prometheus = .ok m)
    (h4 : ext.start_rpc_servers = .ok r) :
    ∃ comps cfg2, (build params ext).2 = Except.ok (comps, cfg2)
      ∧ comps.rpc_handlers = gen_handler DenyUnsafe.no params.config params.client
          params.transaction_pool params.keystore params.on_demand
          params.remote_blockchain params.rpc_extensions_builder
          params.backend.offchain_storage system_rpc_tx
      ∧ comps.rpc_handlers.author.deny = DenyUnsafe.no
      ∧ comps.rpc_handlers.system.deny = DenyUnsafe.no
      ∧ (∀ o, comps.rpc_handlers.offchain = some o → o.deny = DenyUnsafe.no) := by
  rw [build_ok params ext n m r h1 h2 h3 h4]
  refine ⟨okComponents params n, finalConfigOf params.config, rfl, rfl, rfl, rfl, ?_⟩
  intro o ho
  cases hsto : params.backend.offchain_storage <;>
    simp [okComponents, gen_handler, hsto] at ho
  subst ho
  rfl

/-- Witness for claim C6 at the sample full-node run. -/
theorem c6_internal_rpc_handler_witness :
    ∃ comps cfg2, (build sampleParams sampleExt).2 = Except.ok (comps, cfg2)
      ∧ comps.rpc_handlers.author.deny = DenyUnsafe.no := by
  obtain ⟨comps, cfg2, hok, _, hd, _, _⟩ :=
    c6_internal_rpc_handler sampleParams sampleExt 7 1 2 rfl rfl rfl rfl
  exact ⟨comps, cfg2, hok, hd⟩

/-- Claim C9: on every successful run of build, the final configuration
value agrees with the input configuration on every field other than
the telemetry external transport; the whole configuration is unchanged
when no telemetry endpoints are configured, and when they are, the
only change is that the one-shot external transport has been taken. -/
theorem c9_config_frame {Rpc : Type} (params : ServiceParams Rpc)
    (ext : Externals) (n m r : Nat)
    (h1 : ext.generate_initial_session_keys = .ok ())
    (h2 : ext.network_worker_new = .ok n)
    (h3 : ext.with_prometheus = .ok m)
    (h4 : ext.start_rpc_servers = .ok r) :
    ∃ comps cfg2, (build params ext).2 = Except.ok (comps, cfg2)
      ∧ cfg2.role = params.config.role
      ∧ cfg2.dev_key_seed = params.config.dev_key_seed
      ∧ cfg2.offchain_worker = params.config.offchain_worker
      ∧ cfg2.prometheus_config = params.config.prometheus_config
      ∧ cfg2.telemetry_endpoints = params.config.telemetry_endpoints
      ∧ cfg2.tracing_targets = params.config.tracing_targets
      ∧ cfg2.tracing_receiver = params.config.tracing_receiver
      ∧ cfg2.chain_spec = params.config.chain_spec
      ∧ cfg2.base_path = params.config.base_path
      ∧ cfg2.announce_block = params.config.announce_block
      ∧ cfg2.informant_output_format = params.config.informant_output_format
      ∧ cfg2.network = params.config.network
      ∧ cfg2.impl_name = params.config.impl_name
      ∧ cfg2.impl_version = params.config.impl_version
      ∧ (params.config.telemetry_endpoints = none → cfg2 = params.config)
      ∧ (params.config.telemetry_endpoints.isSome = true →
          cfg2.telemetry_external_transport = none) := by
  rw [build_ok params ext n m r h1 h2 h3 h4]
  refine ⟨okComponents params n, finalConfigOf params.config, rfl, ?_⟩
  cases ht : params.config.telemetry_endpoints <;>
    simp [finalConfigOf, ht]

/-- Witness for claim C9 at a sample run with telemetry endpoints
configured and a pending external transport. -/
theorem c9_config_frame_witness :
    ∃ comps cfg2, (build
        { sampleParams with config :=
            { sampleConfig with
                telemetry_endpoints := some 8
                telemetry_external_transport := some 12 } }
        sampleExt).2 = Except.ok (comps, cfg2)
      ∧ cfg2.telemetry_external_transport = none := by
  obtain ⟨comps, cfg2, hok, -, -, -, -, -, -, -, -, -, -, -, -, -, -, -, hsome⟩ :=
    c9_config_frame
      { sampleParams with config :=
          { sampleConfig with
              telemetry_endpoints := some 8
              telemetry_external_transport := some 12 } }
      sampleExt 7 1 2 rfl rfl rfl rfl
  exact ⟨comps, cfg2, hok, hsome rfl⟩

/-- Characterization of build_network when NetworkWorker::new fails. -/
lemma build_network_err (config : Configuration) (client pool : Nat)
    (b : Option (Nat → Nat)) (ext : Externals) (e : Nat)
    (h : ext.network_worker_new = .error e) :
    build_network config client pool b ext =
      (netEvents config, .error (Error.networkWorker e)) := by
  cases hp : config.chain_spec.protocol_id <;> cases b <;>
    simp [build_network, netEvents, h, hp]

/-- Characterization of the Prometheus step when a registry is
configured and with_prometheus fails. -/
lemma promStep_err (config : Configuration) (ext : Externals) (e : Nat)
    (pc : PrometheusConfig) (hpc : config.prometheus_config = some pc)
    (h : ext.with_prometheus = .error e) :
    promStep config ext = ([], .error (Error.prometheusMetrics e)) := by
  simp [promStep, hpc, h]

/-- The start trace spawns no task. -/
lemma spawns_startEvents (ext : Externals) : spawns (startEvents ext) = [] := by
  simp [spawns, startEvents, Event.isSpawn]

/-- The build_network trace spawns no task. -/
lemma spawns_netEvents (config : Configuration) : spawns (netEvents config) = [] := by
  cases hp : config.chain_spec.protocol_id <;>
    simp [spawns, netEvents, Event.isSpawn, hp]

/-- Amended claim C1: a session-key or network-construction failure
makes build return an error before any task is spawned; once the
network worker has been spawned, a Prometheus metrics-registration
failure or an RPC-server startup failure still makes build return an
error, with the network-worker spawn already in the trace; when those
four collaborator calls succeed, build succeeds regardless of the
telemetry and tracing configuration and of a tracing-subscriber
failure. -/
theorem c1_error_policy_amended {Rpc : Type} (params : ServiceParams Rpc)
    (ext : Externals) :
    (∀ e, ext.generate_initial_session_keys = .error e →
        (build params ext).2 = .error (Error.sessionKeys e)
        ∧ spawns (build params ext).1 = [])
    ∧ (∀ e, ext.generate_initial_session_keys = .ok ()
        → ext.network_worker_new = .error e →
        (build params ext).2 = .error (Error.networkWorker e)
        ∧ spawns (build params ext).1 = [])
    ∧ (∀ n e pc, ext.generate_initial_session_keys = .ok ()
        → ext.network_worker_new = .ok n
        → params.config.prometheus_config = some pc
        → ext.with_prometheus = .error e →
        (build params ext).2 = .error (Error.prometheusMetrics e)
        ∧ Event.spawnTask "network-worker" TaskKind.blocking ∈ (build params ext).1)
    ∧ (∀ n m e, ext.generate_initial_session_keys = .ok ()
        → ext.network_worker_new = .ok n
        → ext.with_prometheus = .ok m
        → ext.start_rpc_servers = .error e →
        (build params ext).2 = .error (Error.rpcServers e)
        ∧ Event.spawnTask "network-worker" TaskKind.blocking ∈ (build params ext).1)
    ∧ (∀ n m r, ext.generate_initial_session_keys = .ok ()
        → ext.network_worker_new = .ok n
        → ext.with_prometheus = .ok m
        → ext.start_rpc_servers = .ok r →
        exceptIsOk (build params ext).2 = true) := by
  refine ⟨?_, ?_, ?_, ?_, ?_⟩
  · intro e h
    constructor
    · simp [build, h]
    · simp [build, h, spawns]
  · intro e hk hn
    have hb : build params ext =
        (startEvents ext ++ netEvents params.config,
         .error (Error.networkWorker e)) := by
      simp [build, hk, build_network_err _ _ _ _ _ _ hn, startEvents]
    rw [hb]
    refine ⟨rfl, ?_⟩
    have h1 := spawns_startEvents ext
    have h2 := spawns_netEvents params.config
    simp only [spawns] at h1 h2 ⊢
    rw [List.filter_append, h1, h2]
    rfl
  · intro n e pc hk hn hpc hpm
    have hb : build params ext =
        (startEvents ext ++ netEvents params.config
          ++ [Event.spawnTask "network-worker" TaskKind.blocking]
          ++ (offchainStep params).1
          ++ [Event.spawnTask "txpool-notifications" TaskKind.cooperative]
          ++ offSpawnEvents params
          ++ [Event.spawnTask "on-transaction-imported" TaskKind.cooperative],
         .error (Error.prometheusMetrics e)) := by
      simp [build, hk, build_network_ok _ _ _ _ _ _ hn,
        promStep_err _ _ _ _ hpc hpm, startEvents, offSpawnEvents]
    rw [hb]
    exact ⟨rfl, by simp⟩
  · intro n m e hk hn hpm hr
    have hb : build params ext =
        (startEvents ext ++ netEvents params.config
          ++ [Event.spawnTask "network-worker" TaskKind.blocking]
          ++ (offchainStep params).1
          ++ [Event.spawnTask "txpool-notifications" TaskKind.cooperative]
          ++ offSpawnEvents params
          ++ [Event.spawnTask "on-transaction-imported" TaskKind.cooperative]
          ++ promEvents params.config
          ++ [Event.spawnTask "telemetry-periodic-send" TaskKind.cooperative,
              Event.spawnTask "telemetry-periodic-network-state" TaskKind.cooperative],
         .error (Error.rpcServers e)) := by
      simp [build, hk, build_network_ok _ _ _ _ _ _ hn,
        promStep_ok _ _ _ hpm, hr, startEvents, offSpawnEvents]
    rw [hb]
    exact ⟨rfl, by simp⟩
  · intro n m r hk hn hpm hr
    rw [build_ok params ext n m r hk hn hpm hr]
    rfl

/-- A configuration with a Prometheus registry configured. -/
def c1Config : Configuration :=
  { sampleConfig with prometheus_config := some { port := 0, registry := 0 } }

/-- Sample service parameters carrying the Prometheus configuration. -/
def c1Params : ServiceParams Unit := { sampleParams with config := c1Config }

/-- An oracle record in which the Prometheus metrics registration
fails and everything else succeeds. -/
def c1Ext : Externals := { sampleExt with with_prometheus := .error 0 }

/-- Counterexample to claim C1 as stated: with a configured Prometheus
registry whose metrics registration fails, build returns an error even
though the network-worker task has already been spawned. -/
theorem c1_error_policy_counterexample :
    exceptIsOk (build c1Params c1Ext).2 = false
    ∧ Event.spawnTask "network-worker" TaskKind.blocking ∈ (build c1Params c1Ext).1 := by
  decide

/-- Witness for the amended claim C1: with every collaborator call
succeeding the sample run succeeds, and with failing session-key
generation no task is spawned. -/
theorem c1_error_policy_witness :
    exceptIsOk (build sampleParams sampleExt).2 = true
    ∧ spawns (build sampleParams
        { sampleExt with generate_initial_session_keys := Except.error 4 }).1 = [] := by
  constructor
  · exact (c1_error_policy_amended sampleParams sampleExt).2.2.2.2 7 1 2 rfl rfl rfl rfl
  · exact ((c1_error_policy_amended sampleParams
      { sampleExt with generate_initial_session_keys := Except.error 4 }).1 4 rfl).2

end SubstrateService
